import Mathlib

/-!
Verification of the xyflow Svelte store module.

The repository holds two variants of the central store:
* `src/unnamed/part_000` — the current store (`createStore` over `@xyflow/system`);
  embedded below in namespace `SvelteFlow`.
* `src/packages/svelte/src/lib/store/index.ts` — the earlier store (over
  `@reactflow/system`); embedded below in namespace `LegacyFlow`.

JavaScript numbers are modelled as `Int` (no claim depends on fractional or
floating-point behaviour), reference identity of an untouched element as the
function returning the input term itself, and in-place mutation of an element
owned by the current call as a value transformation.  Functions imported from
packages that are not part of this repository are modelled from the spec and
carry a doc comment saying so.
-/

namespace SvelteFlow

/-- An x/y coordinate pair (`XYPosition` in `@xyflow/system`). -/
structure XYPosition where
  x : Int
  y : Int
deriving DecidableEq

/-- A coordinate extent: top-left and bottom-right corners (`CoordinateExtent`). -/
structure CoordinateExtent where
  topLeft : XYPosition
  bottomRight : XYPosition
deriving DecidableEq

/-- The `computed` record of a node: measured dimensions and the resolved
absolute position, all absent until measurement/layout. -/
structure NodeComputed where
  positionAbsolute : Option XYPosition
  width : Option Int
  height : Option Int
deriving DecidableEq

/-- A node of the flow graph (the fields of `Node` that the store operations
under study read or write). -/
structure Node where
  id : String
  position : XYPosition
  computed : NodeComputed
  selected : Bool
  dragging : Bool
deriving DecidableEq

/-- An edge of the flow graph (the fields the store operations under study
read or write). -/
structure Edge where
  id : String
  source : String
  target : String
  selected : Bool
deriving DecidableEq

/-- An entry of `nodeDragItems` as consumed by `updateNodePositions`
(`NodeBase | NodeDragItem`): an id, a new position, and an optional `computed`
record whose `positionAbsolute` is read through optional chaining. -/
structure NodeDragItem where
  id : String
  position : XYPosition
  computed : Option NodeComputed
deriving DecidableEq

/-- `updateNodePositions` of `src/unnamed/part_000` (lines 67-90), as the pure
transformation it applies to the node collection: every node whose id matches
a drag item is rebuilt with the drag item's position, the drag item's
`computed?.positionAbsolute`, and the supplied `dragging` flag; every other
node is returned itself. -/
def updateNodePositions (nodeDragItems : List NodeDragItem) (dragging : Bool)
    (nds : List Node) : List Node :=
  nds.map fun node =>
    match nodeDragItems.find? (fun ndi => ndi.id == node.id) with
    | some nodeDragItem =>
        { node with
          dragging := dragging
          position := nodeDragItem.position
          computed :=
            { node.computed with
              positionAbsolute := nodeDragItem.computed.bind NodeComputed.positionAbsolute } }
    | none => node

/-- The viewport transform `{x, y, zoom}`. -/
structure Viewport where
  x : Int
  y : Int
  zoom : Int
deriving DecidableEq

/-- The attached pan/zoom engine, modelled by the settings the store pushes
into it (`setScaleExtent`, `setTranslateExtent`). -/
structure PanZoom where
  scaleExtent : Int × Int
  translateExtent : CoordinateExtent
deriving DecidableEq

/-- A connection descriptor, argument of the `isValidConnection` predicate. -/
structure Connection where
  source : String
  target : String
  sourceHandle : Option String
  targetHandle : Option String
deriving DecidableEq

/-- The connection-in-progress record (`ConnectionData`); the start/end handle
records are opaque here and modelled by their ids. -/
structure ConnectionData where
  connectionStartHandle : Option String
  connectionEndHandle : Option String
  connectionPosition : Option XYPosition
  connectionStatus : Option String
deriving DecidableEq

/-- `initConnectionUpdateData` of part_000 (lines 324-329): the idle value of
the connection-in-progress record. -/
def initConnectionUpdateData : ConnectionData :=
  { connectionStartHandle := none
    connectionEndHandle := none
    connectionPosition := none
    connectionStatus := none }

/-- The selection rectangle. -/
structure SelectionRect where
  x : Int
  y : Int
  width : Int
  height : Int
deriving DecidableEq

/-- The fields of `FitViewOptions` the store reads: the `waitForInit` flag and
an optional node list restricting the fit. -/
structure FitViewOptions where
  waitForInit : Bool
  nodes : Option (List Node)
deriving DecidableEq

/-- The value of the `fitViewScheduled` cell: `false`, boolean `true` (set at
store creation), or the options object recorded by a `waitForInit` call. -/
inductive FitViewScheduled where
  | off
  | onFlag
  | onOpts (o : FitViewOptions)
deriving DecidableEq

/-- The entry of the `updates` map consumed by `updateNodeDimensions`: the
freshly measured DOM box of one node plus the force-update flag. -/
structure NodeDimensionUpdate where
  width : Int
  height : Int
  forceUpdate : Bool
deriving DecidableEq

/-- The store state: one field per reactive cell that the operations under
study read or write. -/
structure State where
  nodes : List Node
  edges : List Edge
  viewport : Viewport
  width : Int
  height : Int
  minZoom : Int
  maxZoom : Int
  translateExtent : CoordinateExtent
  panZoom : Option PanZoom
  fitViewScheduled : FitViewScheduled
  multiselectionKeyPressed : Bool
  selectionRect : Option SelectionRect
  selectionRectMode : Option String
  snapGrid : Option (Int × Int)
  isValidConnection : Connection → Bool
  connection : ConnectionData
  nodeTypes : List (String × String)
  edgeTypes : List (String × String)
  domNode : Option Unit
  nodeOrigin : XYPosition

/-- Modelled from the spec: the transform computed by `fitView` of
`@xyflow/system` (not under `src/`) — frames the measured nodes' bounding box
within the viewport's width/height at a zoom within `[minZoom, maxZoom]`.  No
claim depends on the exact value, only on whether the transform is written. -/
def fitViewTransform (nodes : List Node) (width height minZoom maxZoom : Int) :
    Viewport :=
  let measured := nodes.filter fun n =>
    n.computed.width.isSome && n.computed.height.isSome
  let pos : Node → XYPosition := fun n => n.computed.positionAbsolute.getD n.position
  let minX := (measured.map fun n => (pos n).x).foldl min 0
  let minY := (measured.map fun n => (pos n).y).foldl min 0
  let zoom := max minZoom (min maxZoom 1)
  { x := -minX * zoom + width / 2, y := -minY * zoom + height / 2, zoom := zoom }

/-- Modelled from the spec: `fitView` of `@xyflow/system` (not under `src/`).
Frames the given nodes (restricted to `options.nodes` when present): when at
least one of them has measured dimensions it writes the framing transform and
reports success, otherwise it leaves the viewport unchanged and reports
failure. -/
def fitViewUtil (nodes : List Node) (width height minZoom maxZoom : Int)
    (vp : Viewport) (options : Option FitViewOptions) : Bool × Viewport :=
  let fitNodes := (options.bind FitViewOptions.nodes).getD nodes
  if fitNodes.any (fun n => n.computed.width.isSome && n.computed.height.isSome) then
    (true, fitViewTransform fitNodes width height minZoom maxZoom)
  else
    (false, vp)

/-- `fitView` of part_000 (lines 122-146): returns false when no pan/zoom
engine is attached; otherwise, when `options?.waitForInit` holds, records the
options as the pending fit-view request and returns true; otherwise delegates
to the system `fitView`. -/
def fitView (nodes : List Node) (options : Option FitViewOptions) (st : State) :
    Bool × State :=
  match st.panZoom with
  | none => (false, st)
  | some _ =>
    match options with
    | some o =>
      if o.waitForInit then
        (true, { st with fitViewScheduled := FitViewScheduled.onOpts o })
      else
        let r := fitViewUtil nodes st.width st.height st.minZoom st.maxZoom
          st.viewport options
        (r.1, { st with viewport := r.2 })
    | none =>
      let r := fitViewUtil nodes st.width st.height st.minZoom st.maxZoom
        st.viewport none
      (r.1, { st with viewport := r.2 })

/-- Modelled from the spec: `updateNodeDimensions` of `@xyflow/system` (not
under `src/`).  Returns `none` when no DOM node is attached; otherwise
recomputes the measured dimensions for every node whose measured size differs
from the stored one or whose update is forced, leaving other nodes
unchanged. -/
def updateNodeDimensionsSystem (updates : List (String × NodeDimensionUpdate))
    (nodes : List Node) (domNode : Option Unit) : Option (List Node) :=
  match domNode with
  | none => none
  | some _ =>
    some (nodes.map fun node =>
      match updates.find? (fun u => u.1 == node.id) with
      | some u =>
        if node.computed.width != some u.2.width ||
            node.computed.height != some u.2.height || u.2.forceUpdate then
          { node with
            computed :=
              { node.computed with
                width := some u.2.width, height := some u.2.height } }
        else node
      | none => node)

/-- The options with which `updateNodeDimensions` (part_000, lines 105-115)
retries a scheduled fit-view: a scheduled boolean becomes `{ nodes: nextNodes }`,
while scheduled options are retried with `waitForInit` cleared and their node
list defaulted to the newly measured nodes. -/
def scheduledRetryOptions : FitViewScheduled → List Node → Option FitViewOptions
  | FitViewScheduled.off, _ => none
  | FitViewScheduled.onFlag, nextNodes =>
      some { waitForInit := false, nodes := some nextNodes }
  | FitViewScheduled.onOpts o, nextNodes =>
      some { o with waitForInit := false, nodes := some (o.nodes.getD nextNodes) }

/-- `updateNodeDimensions` of part_000 (lines 92-120): applies the system
measurement pass; when it yields nodes and a fit-view is scheduled, retries
the fit-view with the new nodes, clearing the scheduled flag on success; then
writes the new nodes. -/
def updateNodeDimensions (updates : List (String × NodeDimensionUpdate))
    (st : State) : State :=
  match updateNodeDimensionsSystem updates st.nodes st.domNode with
  | none => st
  | some nextNodes =>
    let afterFit :=
      if st.fitViewScheduled = FitViewScheduled.off then st
      else
        let r := fitView nextNodes (scheduledRetryOptions st.fitViewScheduled nextNodes) st
        if r.1 then { r.2 with fitViewScheduled := FitViewScheduled.off } else r.2
    { afterFit with nodes := nextNodes }

/-- `setMinZoom` of part_000 (lines 164-171). -/
def setMinZoom (minZoom : Int) (st : State) : State :=
  match st.panZoom with
  | none => st
  | some pz =>
    { st with
      panZoom := some { pz with scaleExtent := (minZoom, st.maxZoom) }
      minZoom := minZoom }

/-- `setMaxZoom` of part_000 (lines 173-180). -/
def setMaxZoom (maxZoom : Int) (st : State) : State :=
  match st.panZoom with
  | none => st
  | some pz =>
    { st with
      panZoom := some { pz with scaleExtent := (st.minZoom, maxZoom) }
      maxZoom := maxZoom }

/-- `setTranslateExtent` of part_000 (lines 182-189). -/
def setTranslateExtent (extent : CoordinateExtent) (st : State) : State :=
  match st.panZoom with
  | none => st
  | some pz =>
    { st with
      panZoom := some { pz with translateExtent := extent }
      translateExtent := extent }

/-- `addSelectedNodes` of part_000 (lines 241-266): under the multi-select
key, ORs membership in `ids` into each node's `selected` flag; otherwise sets
`selected` to exactly membership in `ids` and clears `selected` on every
edge. -/
def addSelectedNodes (ids : List String) (st : State) : State :=
  let isMultiSelection := st.multiselectionKeyPressed
  let st1 :=
    { st with
      nodes := st.nodes.map fun node =>
        let nodeWillBeSelected := ids.contains node.id
        let selected :=
          if isMultiSelection then node.selected || nodeWillBeSelected
          else nodeWillBeSelected
        { node with selected := selected } }
  if !isMultiSelection then
    { st1 with edges := st1.edges.map fun edge => { edge with selected := false } }
  else st1

/-- `addSelectedEdges` of part_000 (lines 268-292): the mirror image of
`addSelectedNodes` with the roles of nodes and edges swapped. -/
def addSelectedEdges (ids : List String) (st : State) : State :=
  let isMultiSelection := st.multiselectionKeyPressed
  let st1 :=
    { st with
      edges := st.edges.map fun edge =>
        let edgeWillBeSelected := ids.contains edge.id
        let selected :=
          if isMultiSelection then edge.selected || edgeWillBeSelected
          else edgeWillBeSelected
        { edge with selected := selected } }
  if !isMultiSelection then
    { st1 with nodes := st1.nodes.map fun node => { node with selected := false } }
  else st1

/-- The optional argument of `unselectNodesAndEdges`.  In the source the
caller passes references to store-held node/edge objects, and clearing
`selected` through such an alias is what changes the store's arrays; the
subset is therefore modelled by the ids of the store elements it aliases.
`none` on a side means the field was not given, so the whole store collection
is used. -/
structure UnselectParams where
  nodes : Option (List String)
  edges : Option (List String)
deriving DecidableEq

/-- Whether a node belongs to the subset that `unselectNodesAndEdges` operates
on (`params?.nodes || get(store.nodes)`). -/
def nodeInUnselectSubset (params : Option UnselectParams) (n : Node) : Bool :=
  match params.bind UnselectParams.nodes with
  | none => true
  | some ids => ids.contains n.id

/-- Whether an edge belongs to the subset that `unselectNodesAndEdges`
operates on (`params?.edges || get(store.edges)`). -/
def edgeInUnselectSubset (params : Option UnselectParams) (e : Edge) : Bool :=
  match params.bind UnselectParams.edges with
  | none => true
  | some ids => ids.contains e.id

/-- `unselectNodesAndEdges` of part_000 (lines 191-208) together with its
helper `resetSelectedElements`: clears `selected` on every element of the
given (or full) subsets, and calls `store.nodes.set` / `store.edges.set` only
when some element of the respective subset actually had `selected` set.  The
two booleans report whether each `set` call happened. -/
def unselectNodesAndEdges (params : Option UnselectParams) (st : State) :
    State × Bool × Bool :=
  let resetNodes := (st.nodes.filter (nodeInUnselectSubset params)).any Node.selected
  let resetEdges := (st.edges.filter (edgeInUnselectSubset params)).any Edge.selected
  ({ st with
     nodes := st.nodes.map fun n =>
       if nodeInUnselectSubset params n then { n with selected := false } else n
     edges := st.edges.map fun e =>
       if edgeInUnselectSubset params e then { e with selected := false } else e },
   resetNodes, resetEdges)

/-- `handleNodeSelection` of part_000 (lines 294-310): warns (diagnostic code
`"012"`) and leaves the state untouched when the id is unknown; otherwise
clears the selection rectangle and toggles selection.  The second component is
the list of warning codes logged by the call. -/
def handleNodeSelection (id : String) (st : State) : State × List String :=
  match st.nodes.find? (fun n => n.id == id) with
  | none => (st, ["012"])
  | some node =>
    let st1 := { st with selectionRect := none, selectionRectMode := none }
    if !node.selected then
      (addSelectedNodes [id] st1, [])
    else if node.selected && st1.multiselectionKeyPressed then
      ((unselectNodesAndEdges (some { nodes := some [node.id], edges := some [] }) st1).1, [])
    else (st1, [])

/-- `updateConnection` of part_000 (lines 334-336). -/
def updateConnection (newConnection : ConnectionData) (st : State) : State :=
  { st with connection := newConnection }

/-- `cancelConnection` of part_000 (lines 338-340). -/
def cancelConnection (st : State) : State :=
  updateConnection initConnectionUpdateData st

/-- `reset` of part_000 (lines 342-353). -/
def reset (st : State) : State :=
  let st1 :=
    { st with
      selectionRect := none
      selectionRectMode := none
      snapGrid := none
      isValidConnection := fun _ => true
      nodes := ([] : List Node)
      edges := ([] : List Edge) }
  let st2 := (unselectNodesAndEdges none st1).1
  cancelConnection st2

end SvelteFlow

namespace SvelteFlow

/-- C1: `updateNodePositions` keeps length and ids (in order); a node whose id
matches no drag item is returned unchanged (the same object); a node whose id
matches a drag item is rebuilt with the drag item's position, its
`computed?.positionAbsolute`, and the supplied dragging flag. -/
theorem updateNodePositions_spec (D : List NodeDragItem) (dragging : Bool)
    (N : List Node) :
    (updateNodePositions D dragging N).length = N.length ∧
    (updateNodePositions D dragging N).map Node.id = N.map Node.id ∧
    (∀ i (h : i < N.length) (h2 : i < (updateNodePositions D dragging N).length),
      ((∀ d ∈ D, d.id ≠ (N.get ⟨i, h⟩).id) →
        (updateNodePositions D dragging N).get ⟨i, h2⟩ = N.get ⟨i, h⟩) ∧
      (∀ d, D.find? (fun d2 => d2.id == (N.get ⟨i, h⟩).id) = some d →
        (updateNodePositions D dragging N).get ⟨i, h2⟩ =
          { N.get ⟨i, h⟩ with
            dragging := dragging
            position := d.position
            computed :=
              { (N.get ⟨i, h⟩).computed with
                positionAbsolute := d.computed.bind NodeComputed.positionAbsolute } })) := by
  refine ⟨by simp [updateNodePositions], by
    simp only [updateNodePositions, List.map_map, List.map_inj_left]
    intro node _
    cases hf : List.find? (fun ndi => ndi.id == node.id) D with
    | none => simp [Function.comp, hf]
    | some d =>
      have := List.find?_some hf
      simp only [beq_iff_eq] at this
      simp [Function.comp, hf, this], ?_⟩
  intro i h h2
  constructor
  · intro hnone
    have hf : List.find? (fun ndi => ndi.id == (N.get ⟨i, h⟩).id) D = none := by
      rw [List.find?_eq_none]
      intro d hd
      simpa using hnone d hd
    simp only [List.get_eq_getElem] at hf
    simp [updateNodePositions, hf]
  · intro d hd
    simp only [List.get_eq_getElem] at hd
    simp [updateNodePositions, hd]

/-- C1 witness: the theorem applied at a concrete input. -/
theorem updateNodePositions_spec_witness :
    (updateNodePositions
        [{ id := "b", position := ⟨7, 8⟩,
           computed := some { positionAbsolute := some ⟨9, 9⟩, width := none, height := none } }]
        true
        [{ id := "a", position := ⟨0, 0⟩,
           computed := { positionAbsolute := none, width := none, height := none },
           selected := false, dragging := false },
         { id := "b", position := ⟨1, 1⟩,
           computed := { positionAbsolute := some ⟨1, 1⟩, width := some 5, height := some 5 },
           selected := false, dragging := false }]).get ⟨0, by decide⟩ =
      { id := "a", position := ⟨0, 0⟩,
        computed := { positionAbsolute := none, width := none, height := none },
        selected := false, dragging := false } :=
  ((updateNodePositions_spec
      [{ id := "b", position := ⟨7, 8⟩,
         computed := some { positionAbsolute := some ⟨9, 9⟩, width := none, height := none } }]
      true
      [{ id := "a", position := ⟨0, 0⟩,
         computed := { positionAbsolute := none, width := none, height := none },
         selected := false, dragging := false },
       { id := "b", position := ⟨1, 1⟩,
         computed := { positionAbsolute := some ⟨1, 1⟩, width := some 5, height := some 5 },
         selected := false, dragging := false }]).2.2 0 (by decide) (by decide)).1
    (by decide)

/-- A concrete store state with no pan/zoom engine attached, used to
instantiate theorems. -/
def baseState : State :=
  { nodes := []
    edges := []
    viewport := ⟨0, 0, 1⟩
    width := 1000
    height := 800
    minZoom := 1
    maxZoom := 2
    translateExtent := ⟨⟨-1000, -1000⟩, ⟨1000, 1000⟩⟩
    panZoom := none
    fitViewScheduled := FitViewScheduled.off
    multiselectionKeyPressed := false
    selectionRect := none
    selectionRectMode := none
    snapGrid := none
    isValidConnection := fun _ => true
    connection := initConnectionUpdateData
    nodeTypes := [("default", "DefaultNode")]
    edgeTypes := [("default", "BezierEdge")]
    domNode := some ()
    nodeOrigin := ⟨0, 0⟩ }

/-- `baseState` with a pan/zoom engine attached. -/
def engState : State :=
  { baseState with panZoom := some ⟨(1, 2), ⟨⟨-1000, -1000⟩, ⟨1000, 1000⟩⟩⟩ }

/-- C3: `addSelectedNodes ids` with the multi-select key held ORs membership
in `ids` into the node selection and leaves the edges untouched; without it,
exactly the nodes whose ids are in `ids` end up selected and every edge's
selected flag is cleared; symmetrically for `addSelectedEdges` with the roles
of nodes and edges swapped.  Ids and order of both collections are always
preserved. -/
theorem addSelected_spec (ids : List String) (st : State) :
    (addSelectedNodes ids st).nodes.map Node.id = st.nodes.map Node.id ∧
    (addSelectedNodes ids st).edges.map Edge.id = st.edges.map Edge.id ∧
    (addSelectedEdges ids st).nodes.map Node.id = st.nodes.map Node.id ∧
    (addSelectedEdges ids st).edges.map Edge.id = st.edges.map Edge.id ∧
    (st.multiselectionKeyPressed = true →
      (addSelectedNodes ids st).edges = st.edges ∧
      (addSelectedEdges ids st).nodes = st.nodes ∧
      (∀ i (h : i < st.nodes.length)
          (h2 : i < (addSelectedNodes ids st).nodes.length),
        ((addSelectedNodes ids st).nodes.get ⟨i, h2⟩).selected =
          ((st.nodes.get ⟨i, h⟩).selected || ids.contains (st.nodes.get ⟨i, h⟩).id)) ∧
      (∀ i (h : i < st.edges.length)
          (h2 : i < (addSelectedEdges ids st).edges.length),
        ((addSelectedEdges ids st).edges.get ⟨i, h2⟩).selected =
          ((st.edges.get ⟨i, h⟩).selected || ids.contains (st.edges.get ⟨i, h⟩).id))) ∧
    (st.multiselectionKeyPressed = false →
      (∀ i (h : i < st.nodes.length)
          (h2 : i < (addSelectedNodes ids st).nodes.length),
        ((addSelectedNodes ids st).nodes.get ⟨i, h2⟩).selected =
          ids.contains (st.nodes.get ⟨i, h⟩).id) ∧
      (∀ e ∈ (addSelectedNodes ids st).edges, e.selected = false) ∧
      (∀ i (h : i < st.edges.length)
          (h2 : i < (addSelectedEdges ids st).edges.length),
        ((addSelectedEdges ids st).edges.get ⟨i, h2⟩).selected =
          ids.contains (st.edges.get ⟨i, h⟩).id) ∧
      (∀ n ∈ (addSelectedEdges ids st).nodes, n.selected = false)) := by
  refine ⟨?_, ?_, ?_, ?_, ?_, ?_⟩
  · cases hms : st.multiselectionKeyPressed <;> simp [addSelectedNodes, hms]
  · cases hms : st.multiselectionKeyPressed <;> simp [addSelectedNodes, hms]
  · cases hms : st.multiselectionKeyPressed <;> simp [addSelectedEdges, hms]
  · cases hms : st.multiselectionKeyPressed <;> simp [addSelectedEdges, hms]
  · intro hms
    refine ⟨?_, ?_, ?_, ?_⟩ <;> simp [addSelectedNodes, addSelectedEdges, hms]
  · intro hms
    refine ⟨?_, ?_, ?_, ?_⟩ <;> simp [addSelectedNodes, addSelectedEdges, hms]

/-- C3 witness: the theorem applied at a concrete input. -/
theorem addSelected_spec_witness :
    (addSelectedNodes ["a"]
        { baseState with
          nodes := [{ id := "a", position := ⟨0, 0⟩,
                      computed := ⟨none, none, none⟩,
                      selected := false, dragging := false }],
          edges := [{ id := "e1", source := "a", target := "a", selected := true }] }).nodes.map
        Node.id = ["a"] ∧
    (∀ e ∈ (addSelectedNodes ["a"]
        { baseState with
          nodes := [{ id := "a", position := ⟨0, 0⟩,
                      computed := ⟨none, none, none⟩,
                      selected := false, dragging := false }],
          edges := [{ id := "e1", source := "a", target := "a", selected := true }] }).edges,
      e.selected = false) :=
  ⟨(addSelected_spec ["a"] _).1.trans (by decide),
   ((addSelected_spec ["a"] _).2.2.2.2.2 rfl).2.1⟩

/-- C5 counterexample: with no pan/zoom engine attached and `waitForInit`
requested, `fitView` returns false and registers no pending fit-view request,
where the claim says it returns true and registers one. -/
theorem fitView_waitForInit_counterexample :
    baseState.panZoom = none ∧
    (fitView [] (some { waitForInit := true, nodes := none }) baseState).1 = false ∧
    (fitView [] (some { waitForInit := true, nodes := none })
        baseState).2.fitViewScheduled = FitViewScheduled.off :=
  ⟨rfl, rfl, rfl⟩

/-- C5 (amended): when no pan/zoom engine is attached, `fitView` returns false
and changes nothing, regardless of `waitForInit`; when an engine is attached
and `waitForInit` is requested, `fitView` registers the options as the pending
fit-view request, returns true, and performs no transform change. -/
theorem fitView_noEngine_and_waitForInit (nodes : List Node)
    (options : Option FitViewOptions) (st : State) :
    (st.panZoom = none → fitView nodes options st = (false, st)) ∧
    (∀ o, st.panZoom ≠ none → options = some o → o.waitForInit = true →
      fitView nodes options st =
        (true, { st with fitViewScheduled := FitViewScheduled.onOpts o })) := by
  constructor
  · intro h
    simp [fitView, h]
  · intro o hpz ho hw
    subst ho
    cases hp : st.panZoom with
    | none => exact absurd hp hpz
    | some pz => simp [fitView, hp, hw]

/-- C5 witness: the amended theorem applied at concrete inputs, one without
and one with an attached engine. -/
theorem fitView_noEngine_and_waitForInit_witness :
    fitView [] (some { waitForInit := true, nodes := none }) baseState =
      (false, baseState) ∧
    fitView [] (some { waitForInit := true, nodes := none }) engState =
      (true, { engState with
               fitViewScheduled :=
                 FitViewScheduled.onOpts { waitForInit := true, nodes := none } }) :=
  ⟨(fitView_noEngine_and_waitForInit [] _ baseState).1 rfl,
   (fitView_noEngine_and_waitForInit [] _ engState).2
     { waitForInit := true, nodes := none } (by simp [engState]) rfl rfl⟩

/-- A fit-view retry issued with `waitForInit` cleared never touches the
`fitViewScheduled` cell. -/
theorem fitView_preserves_scheduled (nodes : List Node) (o : FitViewOptions)
    (st : State) (h : o.waitForInit = false) :
    (fitView nodes (some o) st).2.fitViewScheduled = st.fitViewScheduled := by
  cases hp : st.panZoom with
  | none => simp [fitView, hp]
  | some pz => simp [fitView, hp, h]

/-- C6: when `updateNodeDimensions` applies measurements while a fit-view is
scheduled, it retries the fit-view with the newly measured nodes; the
scheduled flag is cleared exactly when that retry succeeds, and otherwise left
as it was, so a later dimension update retries again. -/
theorem updateNodeDimensions_fitViewRetry
    (updates : List (String × NodeDimensionUpdate)) (st : State) (next : List Node)
    (hnext : updateNodeDimensionsSystem updates st.nodes st.domNode = some next)
    (hsch : st.fitViewScheduled ≠ FitViewScheduled.off) :
    ((fitView next (scheduledRetryOptions st.fitViewScheduled next) st).1 = true →
      (updateNodeDimensions updates st).fitViewScheduled = FitViewScheduled.off) ∧
    ((fitView next (scheduledRetryOptions st.fitViewScheduled next) st).1 = false →
      (updateNodeDimensions updates st).fitViewScheduled = st.fitViewScheduled) ∧
    (updateNodeDimensions updates st).nodes = next := by
  have hwf : ∀ o, scheduledRetryOptions st.fitViewScheduled next = some o →
      o.waitForInit = false := by
    cases hs : st.fitViewScheduled with
    | off => exact absurd hs hsch
    | onFlag => intro o ho; cases ho; rfl
    | onOpts o0 => intro o ho; cases ho; rfl
  have hpres :
      (fitView next (scheduledRetryOptions st.fitViewScheduled next)
        st).2.fitViewScheduled = st.fitViewScheduled := by
    cases ho : scheduledRetryOptions st.fitViewScheduled next with
    | none =>
      cases hp : st.panZoom with
      | none => simp [fitView, hp]
      | some pz => simp [fitView, hp]
    | some o => exact fitView_preserves_scheduled next o st (hwf o ho)
  simp only [updateNodeDimensions, hnext, if_neg hsch]
  cases hr : (fitView next (scheduledRetryOptions st.fitViewScheduled next) st).1 with
  | true => exact ⟨fun _ => by simp, fun hc => by simp at hc, by simp⟩
  | false => exact ⟨fun hc => by simp at hc, fun _ => by simpa using hpres, by simp⟩

/-- C6 witness: the theorem applied at a concrete input; the engine is
attached, a fit-view is scheduled, the retry succeeds, and the scheduled flag
ends cleared. -/
theorem updateNodeDimensions_fitViewRetry_witness :
    (updateNodeDimensions [("a", { width := 10, height := 10, forceUpdate := false })]
        { engState with
          fitViewScheduled := FitViewScheduled.onFlag
          nodes := [{ id := "a", position := ⟨0, 0⟩,
                      computed := ⟨some ⟨0, 0⟩, none, none⟩,
                      selected := false, dragging := false }] }).fitViewScheduled =
      FitViewScheduled.off :=
  (updateNodeDimensions_fitViewRetry
      [("a", { width := 10, height := 10, forceUpdate := false })]
      { engState with
        fitViewScheduled := FitViewScheduled.onFlag
        nodes := [{ id := "a", position := ⟨0, 0⟩,
                    computed := ⟨some ⟨0, 0⟩, none, none⟩,
                    selected := false, dragging := false }] }
      [{ id := "a", position := ⟨0, 0⟩,
         computed := ⟨some ⟨0, 0⟩, some 10, some 10⟩,
         selected := false, dragging := false }]
      (by decide) (by decide)).1 (by decide)

/-- C7: `unselectNodesAndEdges` clears `selected` on the given (or full)
node/edge subsets, leaves every element outside the subsets untouched, and
calls `store.nodes.set` (respectively `store.edges.set`) precisely when at
least one node (respectively edge) of the subset actually had `selected`
set. -/
theorem unselectNodesAndEdges_spec (params : Option UnselectParams) (st : State) :
    (∀ i (h : i < st.nodes.length)
        (h2 : i < (unselectNodesAndEdges params st).1.nodes.length),
      (nodeInUnselectSubset params (st.nodes.get ⟨i, h⟩) = true →
        (unselectNodesAndEdges params st).1.nodes.get ⟨i, h2⟩ =
          { st.nodes.get ⟨i, h⟩ with selected := false }) ∧
      (nodeInUnselectSubset params (st.nodes.get ⟨i, h⟩) = false →
        (unselectNodesAndEdges params st).1.nodes.get ⟨i, h2⟩ = st.nodes.get ⟨i, h⟩)) ∧
    (∀ i (h : i < st.edges.length)
        (h2 : i < (unselectNodesAndEdges params st).1.edges.length),
      (edgeInUnselectSubset params (st.edges.get ⟨i, h⟩) = true →
        (unselectNodesAndEdges params st).1.edges.get ⟨i, h2⟩ =
          { st.edges.get ⟨i, h⟩ with selected := false }) ∧
      (edgeInUnselectSubset params (st.edges.get ⟨i, h⟩) = false →
        (unselectNodesAndEdges params st).1.edges.get ⟨i, h2⟩ = st.edges.get ⟨i, h⟩)) ∧
    ((unselectNodesAndEdges params st).2.1 = true ↔
      ∃ n ∈ st.nodes, nodeInUnselectSubset params n = true ∧ n.selected = true) ∧
    ((unselectNodesAndEdges params st).2.2 = true ↔
      ∃ e ∈ st.edges, edgeInUnselectSubset params e = true ∧ e.selected = true) := by
  refine ⟨?_, ?_, ?_, ?_⟩
  · intro i h h2
    constructor <;> intro hin <;>
      simp only [List.get_eq_getElem] at hin ⊢ <;>
      simp [unselectNodesAndEdges, hin]
  · intro i h h2
    constructor <;> intro hin <;>
      simp only [List.get_eq_getElem] at hin ⊢ <;>
      simp [unselectNodesAndEdges, hin]
  · simp only [unselectNodesAndEdges, List.any_eq_true, List.mem_filter]
    constructor
    · rintro ⟨n, ⟨hn, hin⟩, hsel⟩
      exact ⟨n, hn, hin, hsel⟩
    · rintro ⟨n, hn, hin, hsel⟩
      exact ⟨n, ⟨hn, hin⟩, hsel⟩
  · simp only [unselectNodesAndEdges, List.any_eq_true, List.mem_filter]
    constructor
    · rintro ⟨e, ⟨he, hin⟩, hsel⟩
      exact ⟨e, he, hin, hsel⟩
    · rintro ⟨e, he, hin, hsel⟩
      exact ⟨e, ⟨he, hin⟩, hsel⟩

/-- C7 witness: the theorem applied at a concrete input with one selected
node in the subset. -/
theorem unselectNodesAndEdges_spec_witness :
    (unselectNodesAndEdges none
        { baseState with
          nodes := [{ id := "a", position := ⟨0, 0⟩,
                      computed := ⟨none, none, none⟩,
                      selected := true, dragging := false }] }).2.1 = true :=
  ((unselectNodesAndEdges_spec none
      { baseState with
        nodes := [{ id := "a", position := ⟨0, 0⟩,
                    computed := ⟨none, none, none⟩,
                    selected := true, dragging := false }] }).2.2.1).2
    ⟨{ id := "a", position := ⟨0, 0⟩, computed := ⟨none, none, none⟩,
       selected := true, dragging := false }, by decide, by decide, rfl⟩

/-- C8: `handleNodeSelection` on an id that matches no node of the collection
logs the diagnostic code `"012"` and returns with every state cell unchanged;
the embedded operation is a total function, so the call cannot throw. -/
theorem handleNodeSelection_missing_id (id : String) (st : State)
    (h : ∀ n ∈ st.nodes, n.id ≠ id) :
    handleNodeSelection id st = (st, ["012"]) := by
  have hf : st.nodes.find? (fun n => n.id == id) = none := by
    rw [List.find?_eq_none]
    intro n hn
    simpa using h n hn
  simp [handleNodeSelection, hf]

/-- C8 witness: the theorem applied at a concrete input. -/
theorem handleNodeSelection_missing_id_witness :
    handleNodeSelection "ghost" baseState = (baseState, ["012"]) :=
  handleNodeSelection_missing_id "ghost" baseState (by simp [baseState])

/-- C9: with no pan/zoom engine attached, `setMinZoom`, `setMaxZoom` and
`setTranslateExtent` leave the whole state unchanged (the new bound is
dropped, not cached); with an engine attached, each updates its bound cell
together with the corresponding engine setting. -/
theorem setZoomBounds_spec (v w : Int) (e : CoordinateExtent) (st : State) :
    (st.panZoom = none →
      setMinZoom v st = st ∧ setMaxZoom w st = st ∧ setTranslateExtent e st = st) ∧
    (∀ pz, st.panZoom = some pz →
      setMinZoom v st =
        { st with minZoom := v,
                  panZoom := some { pz with scaleExtent := (v, st.maxZoom) } } ∧
      setMaxZoom w st =
        { st with maxZoom := w,
                  panZoom := some { pz with scaleExtent := (st.minZoom, w) } } ∧
      setTranslateExtent e st =
        { st with translateExtent := e,
                  panZoom := some { pz with translateExtent := e } }) := by
  constructor
  · intro h
    exact ⟨by simp [setMinZoom, h], by simp [setMaxZoom, h],
           by simp [setTranslateExtent, h]⟩
  · intro pz h
    exact ⟨by simp [setMinZoom, h], by simp [setMaxZoom, h],
           by simp [setTranslateExtent, h]⟩

/-- C9 witness: the theorem applied at concrete inputs, once without and once
with an attached engine. -/
theorem setZoomBounds_spec_witness :
    setMinZoom 3 baseState = baseState ∧
    (setMinZoom 3 engState).minZoom = 3 :=
  ⟨((setZoomBounds_spec 3 4 ⟨⟨0, 0⟩, ⟨1, 1⟩⟩ baseState).1 rfl).1,
   by rw [((setZoomBounds_spec 3 4 ⟨⟨0, 0⟩, ⟨1, 1⟩⟩ engState).2
        ⟨(1, 2), ⟨⟨-1000, -1000⟩, ⟨1000, 1000⟩⟩⟩ rfl).1]⟩

/-- C10: `reset` empties the node and edge collections (so no selection
remains), clears the selection rectangle, its mode and the snap grid, restores
the accept-all connection validator, and resets the connection-in-progress
record to its idle value, while leaving the viewport, the zoom bounds, the
translate extent, the type registries and the fit-view-scheduled flag
unchanged. -/
theorem reset_spec (st : State) :
    (reset st).nodes = [] ∧
    (reset st).edges = [] ∧
    (reset st).selectionRect = none ∧
    (reset st).selectionRectMode = none ∧
    (reset st).snapGrid = none ∧
    (reset st).isValidConnection = (fun _ => true) ∧
    (reset st).connection = initConnectionUpdateData ∧
    (reset st).viewport = st.viewport ∧
    (reset st).minZoom = st.minZoom ∧
    (reset st).maxZoom = st.maxZoom ∧
    (reset st).translateExtent = st.translateExtent ∧
    (reset st).nodeTypes = st.nodeTypes ∧
    (reset st).edgeTypes = st.edgeTypes ∧
    (reset st).fitViewScheduled = st.fitViewScheduled :=
  ⟨rfl, rfl, rfl, rfl, rfl, rfl, rfl, rfl, rfl, rfl, rfl, rfl, rfl, rfl⟩

end SvelteFlow

namespace LegacyFlow

/-- A handle side (`Position` of `@reactflow/system`). -/
inductive Position where
  | Top
  | Right
  | Bottom
  | Left
deriving DecidableEq

/-- A handle rectangle of a node's handle-bounds cache. -/
structure Handle where
  id : Option String
  position : Position
  x : Int
  y : Int
  width : Int
  height : Int
deriving DecidableEq

/-- The handle-bounds cache of a node: source-role and target-role handle
lists. -/
structure HandleBounds where
  source : Option (List Handle)
  target : Option (List Handle)
deriving DecidableEq

/-- A node of the legacy store (the fields read by the deletion pipeline and
the visible-edges projection). -/
structure Node where
  id : String
  positionAbsolute : SvelteFlow.XYPosition
  width : Option Int
  height : Option Int
  parentNode : Option String
  selected : Bool
  deletable : Option Bool
  handleBounds : Option HandleBounds
deriving DecidableEq

/-- An edge of the legacy store. -/
structure Edge where
  id : String
  source : String
  target : String
  sourceHandle : Option String
  targetHandle : Option String
  selected : Bool
  deletable : Option Bool
  type : Option String
deriving DecidableEq

/-- An axis-aligned node rectangle. -/
structure Rect where
  x : Int
  y : Int
  width : Int
  height : Int
deriving DecidableEq

/-- Modelled from the spec: `getNodeData` of `EdgeRenderer/utils` (not under
`src/`) — an edge endpoint is usable only when the node exists and its
geometry is known (measured dimensions and handle bounds present); returns the
node's rectangle and handle bounds, with `none` standing for
`isValid = false`. -/
def getNodeData (node : Option Node) : Option (Rect × HandleBounds) :=
  match node with
  | none => none
  | some n =>
    match n.width, n.height, n.handleBounds with
    | some w, some h, some hb =>
        some ({ x := n.positionAbsolute.x, y := n.positionAbsolute.y,
                width := w, height := h }, hb)
    | _, _, _ => none

/-- Modelled from the spec: `getHandle` of `EdgeRenderer/utils` (not under
`src/`) — the explicitly referenced handle when its id exists among the given
handles of the role, otherwise the first handle of the role; `none` when the
role has no usable handle. -/
def getHandle (bounds : Option (List Handle)) (handleId : Option String) :
    Option Handle :=
  match bounds with
  | none => none
  | some handles =>
    match handleId with
    | none => handles.head?
    | some hid =>
      match handles.find? (fun h => h.id == some hid) with
      | some h => some h
      | none => handles.head?

/-- The anchor point of a handle on a node, by handle side. -/
def handleAnchor (rect : Rect) (h : Handle) (p : Position) :
    SvelteFlow.XYPosition :=
  let cx := rect.x + h.x + h.width / 2
  let cy := rect.y + h.y + h.height / 2
  match p with
  | Position.Top => ⟨cx, rect.y + h.y⟩
  | Position.Bottom => ⟨cx, rect.y + h.y + h.height⟩
  | Position.Left => ⟨rect.x + h.x, cy⟩
  | Position.Right => ⟨rect.x + h.x + h.width, cy⟩

/-- Modelled from the spec: `getEdgePositions` of `EdgeRenderer/utils` (not
under `src/`) — geometric anchor coordinates from node rectangle + handle
rectangle + handle side; no claim depends on the exact values. -/
def getEdgePositions (sourceNodeRect : Rect) (sourceHandle : Handle)
    (sourcePosition : Position) (targetNodeRect : Rect) (targetHandle : Handle)
    (targetPosition : Position) : Int × Int × Int × Int :=
  let s := handleAnchor sourceNodeRect sourceHandle sourcePosition
  let t := handleAnchor targetNodeRect targetHandle targetPosition
  (s.x, s.y, t.x, t.y)

/-- The derived edge record produced by `edgesWithDataStore`
(`WrapEdgeProps`): the edge together with its resolved type, anchor
coordinates, handle sides and handle ids. -/
structure WrapEdgeProps where
  edge : Edge
  type : String
  sourceX : Int
  sourceY : Int
  targetX : Int
  targetY : Int
  sourcePosition : Position
  targetPosition : Position
  sourceHandleId : Option String
  targetHandleId : Option String
deriving DecidableEq

/-- The body of the `edgesWithDataStore` mapping
(`src/packages/svelte/src/lib/store/index.ts` lines 120-171) for one edge;
`none` models the `null` that the trailing filter removes. -/
def projectEdge (nodes : List Node) (edge : Edge) : Option WrapEdgeProps :=
  let sourceNode := nodes.find? (fun node => node.id == edge.source)
  let targetNode := nodes.find? (fun node => node.id == edge.target)
  match getNodeData sourceNode, getNodeData targetNode with
  | some (sourceNodeRect, sourceHandleBounds),
    some (targetNodeRect, targetHandleBounds) =>
    let edgeType := edge.type.getD "default"
    let sourceHandle := getHandle sourceHandleBounds.source edge.sourceHandle
    let targetHandle := getHandle targetHandleBounds.target edge.targetHandle
    let sourcePosition := (sourceHandle.map Handle.position).getD Position.Bottom
    let targetPosition := (targetHandle.map Handle.position).getD Position.Top
    match sourceHandle, targetHandle with
    | some sh, some th =>
      let r := getEdgePositions sourceNodeRect sh sourcePosition
        targetNodeRect th targetPosition
      some { edge := edge
             type := edgeType
             sourceX := r.1
             sourceY := r.2.1
             targetX := r.2.2.1
             targetY := r.2.2.2
             sourcePosition := sourcePosition
             targetPosition := targetPosition
             sourceHandleId := edge.sourceHandle
             targetHandleId := edge.targetHandle }
    | _, _ => none
  | _, _ => none

/-- `edgesWithDataStore` of the legacy store (lines 118-173): the
visible-edges projection, `.map(...)` followed by the non-null filter. -/
def edgesWithDataStore (edges : List Edge) (nodes : List Node) :
    List WrapEdgeProps :=
  edges.filterMap (projectEdge nodes)

/-- Modelled from the spec: `getConnectedEdges` of `@reactflow/utils` (not
under `src/`) — the edges of `edges` that reference one of `nodes` as source
or target. -/
def getConnectedEdges (nodes : List Node) (edges : List Edge) : List Edge :=
  let nodeIds := nodes.map Node.id
  edges.filter (fun e => nodeIds.contains e.source || nodeIds.contains e.target)

/-- The deletion pipeline of the legacy store
(`src/packages/svelte/src/lib/store/index.ts` lines 315-356), run when the
delete key becomes pressed, as the transformation it applies to the node and
edge collections.  The source guard `if (nodesToRemove || initialHitEdges)` is
always truthy (both are arrays), so the two store updates are unconditional
here as well. -/
def deleteKeyPressedRun (nodes : List Node) (edges : List Edge) :
    List Node × List Edge :=
  let selectedNodes := nodes.filter Node.selected
  let selectedEdges := edges.filter Edge.selected
  let nodeIds := selectedNodes.map Node.id
  let edgeIds := selectedEdges.map Edge.id
  let nodesToRemove := nodes.foldl (fun res node =>
    let parentHit := !nodeIds.contains node.id &&
      (match node.parentNode with
       | some p => (res.find? (fun n => n.id == p)).isSome
       | none => false)
    let deletable := node.deletable.getD true
    if deletable && (nodeIds.contains node.id || parentHit) then res ++ [node]
    else res) []
  let deletableEdges := edges.filter (fun e => e.deletable.getD true)
  let initialHitEdges := deletableEdges.filter (fun e => edgeIds.contains e.id)
  let connectedEdges := getConnectedEdges nodesToRemove deletableEdges
  let edgesToRemove := initialHitEdges ++ connectedEdges
  let edgeIdsToRemove := edgesToRemove.foldl (fun res e =>
    if res.contains e.id then res else res ++ [e.id]) []
  (nodes.filter (fun node => !nodeIds.contains node.id),
   edges.filter (fun edge => !edgeIdsToRemove.contains edge.id))

/-- C4: every edge of the visible-edges projection comes from an edge whose
source and target nodes are present in the node collection with known
geometry and whose handle resolves on both sides (source-role handles on the
source node, target-role on the target); an edge whose endpoint node is
absent or has unknown geometry, or for which a side resolves no handle, is
excluded — the projection is a total function, so exclusion raises no error;
and when an explicitly referenced handle id matches no handle of the role,
resolution falls back to the first handle of that role. -/
theorem edgesWithDataStore_spec (edges : List Edge) (nodes : List Node) :
    (∀ w ∈ edgesWithDataStore edges nodes,
      ∃ e ∈ edges, projectEdge nodes e = some w ∧
        ∃ srcData tgtData,
          getNodeData (nodes.find? (fun node => node.id == e.source)) = some srcData ∧
          getNodeData (nodes.find? (fun node => node.id == e.target)) = some tgtData ∧
          (getHandle srcData.2.source e.sourceHandle).isSome = true ∧
          (getHandle tgtData.2.target e.targetHandle).isSome = true) ∧
    (∀ e : Edge,
      (getNodeData (nodes.find? (fun node => node.id == e.source)) = none →
        projectEdge nodes e = none) ∧
      (getNodeData (nodes.find? (fun node => node.id == e.target)) = none →
        projectEdge nodes e = none) ∧
      (∀ srcData tgtData,
        getNodeData (nodes.find? (fun node => node.id == e.source)) = some srcData →
        getNodeData (nodes.find? (fun node => node.id == e.target)) = some tgtData →
        (getHandle srcData.2.source e.sourceHandle = none ∨
          getHandle tgtData.2.target e.targetHandle = none) →
        projectEdge nodes e = none)) ∧
    (∀ handles hid, (∀ h ∈ handles, h.id ≠ some hid) →
      getHandle (some handles) (some hid) = handles.head?) := by
  refine ⟨?_, ?_, ?_⟩
  · intro w hw
    rw [edgesWithDataStore, List.mem_filterMap] at hw
    obtain ⟨e, he, hpe⟩ := hw
    refine ⟨e, he, hpe, ?_⟩
    cases hsrc : getNodeData (nodes.find? (fun node => node.id == e.source)) with
    | none => simp [projectEdge, hsrc] at hpe
    | some srcData =>
      cases htgt : getNodeData (nodes.find? (fun node => node.id == e.target)) with
      | none =>
        obtain ⟨sRect, sHB⟩ := srcData
        simp [projectEdge, hsrc, htgt] at hpe
      | some tgtData =>
        refine ⟨srcData, tgtData, rfl, rfl, ?_, ?_⟩
        · cases hsh : getHandle srcData.2.source e.sourceHandle with
          | none =>
            obtain ⟨sRect, sHB⟩ := srcData
            obtain ⟨tRect, tHB⟩ := tgtData
            cases hth : getHandle tHB.target e.targetHandle with
            | none => simp [projectEdge, hsrc, htgt, hsh, hth] at hpe
            | some th => simp [projectEdge, hsrc, htgt, hsh, hth] at hpe
          | some sh => simp
        · cases hth : getHandle tgtData.2.target e.targetHandle with
          | none =>
            obtain ⟨sRect, sHB⟩ := srcData
            obtain ⟨tRect, tHB⟩ := tgtData
            cases hsh : getHandle sHB.source e.sourceHandle with
            | none => simp [projectEdge, hsrc, htgt, hsh, hth] at hpe
            | some sh => simp [projectEdge, hsrc, htgt, hsh, hth] at hpe
          | some th => simp
  · intro e
    refine ⟨?_, ?_, ?_⟩
    · intro h
      simp [projectEdge, h]
    · intro h
      cases hsrc : getNodeData (nodes.find? (fun node => node.id == e.source)) with
      | none => simp [projectEdge, hsrc]
      | some srcData =>
        obtain ⟨sRect, sHB⟩ := srcData
        simp [projectEdge, hsrc, h]
    · intro srcData tgtData hs ht hor
      obtain ⟨sRect, sHB⟩ := srcData
      obtain ⟨tRect, tHB⟩ := tgtData
      cases hor with
      | inl hsh =>
        cases hth : getHandle tHB.target e.targetHandle with
        | none => simp [projectEdge, hs, ht, hsh, hth]
        | some th => simp [projectEdge, hs, ht, hsh, hth]
      | inr hth =>
        cases hsh : getHandle sHB.source e.sourceHandle with
        | none => simp [projectEdge, hs, ht, hsh, hth]
        | some sh => simp [projectEdge, hs, ht, hsh, hth]
  · intro handles hid h
    have hf : handles.find? (fun h2 => h2.id == some hid) = none := by
      rw [List.find?_eq_none]
      intro x hx
      simpa using h x hx
    simp [getHandle, hf]

/-- C4 witness: the exclusion part of the theorem applied at a concrete edge
whose source node is absent from the node collection. -/
theorem edgesWithDataStore_spec_witness :
    projectEdge []
        { id := "e", source := "s", target := "t", sourceHandle := none,
          targetHandle := none, selected := false, deletable := none,
          type := none } = none :=
  ((edgesWithDataStore_spec [] []).2.1
      { id := "e", source := "s", target := "t", sourceHandle := none,
        targetHandle := none, selected := false, deletable := none,
        type := none }).1 rfl

/-- C2: at this input — a single selected node with `deletable:false` and no
edges — the legacy deletion pipeline removes the node from the node
collection, because the store filter uses the selected ids and ignores the
deletable-filtered `nodesToRemove` set it computed; the claim (and the spec's
deletion-pipeline description) say a node with `deletable:false` is never
removed. -/
theorem deleteKeyPressedRun_removes_nondeletable :
    deleteKeyPressedRun
        [{ id := "a", positionAbsolute := ⟨0, 0⟩, width := none, height := none,
           parentNode := none, selected := true, deletable := some false,
           handleBounds := none }] [] = ([], []) := by decide

end LegacyFlow
